import Mathlib

/-!
Verification of the Claire relaxation-companion application.

The Python sources (`auth.py`, `db.py`, `app.py`, `claire_ai.py`) are shallowly
embedded below: the relational tables become lists of records inside a `DB`
state, SQLAlchemy queries become `List.filter`/`List.insertionSort` over those
lists, Streamlit session state becomes an explicit `SessionState` record, and
the two external collaborators (the bcrypt library and the OpenAI completion
call) are modelled, the first as a collision-free keyed digest, the second as
an `Except`-valued function parameter.  Python exceptions are `Except.error`;
Python string slices and truthiness tests are modelled by dedicated helpers.
-/

namespace Claire

/-! ## Python string helpers (kernel-evaluable counterparts of `str` methods) -/

/-- UTF-8 encoding of a string as a byte list; counterpart of Python
`s.encode("utf-8")`. -/
def utf8Bytes (s : String) : List Nat :=
  s.data.flatMap (fun c => (String.utf8EncodeChar c).map (fun b => b.toNat))

/-- Counterpart of Python `s.strip()`: drop leading and trailing whitespace. -/
def pyStrip (s : String) : String :=
  ⟨((s.data.dropWhile Char.isWhitespace).reverse.dropWhile Char.isWhitespace).reverse⟩

/-- Counterpart of Python `s.lower()` on the ASCII range. -/
def pyLower (s : String) : String :=
  ⟨s.data.map Char.toLower⟩

/-- Counterpart of Python `sep.join(parts)`. -/
def pyJoin (sep : String) (parts : List String) : String :=
  match parts with
  | [] => ""
  | p :: ps => ps.foldl (fun acc x => acc ++ sep ++ x) p

/-- Counterpart of the Python slice `xs[-k:]`.  Note the edge case the source
relies on us modelling faithfully: `xs[-0:]` is the whole list, not `[]`. -/
def pySliceLast {α : Type} (k : Nat) (xs : List α) : List α :=
  if k = 0 then xs else xs.drop (xs.length - k)

/-! ## Model of the external bcrypt library

`auth.py` delegates to `bcrypt.hashpw` / `bcrypt.checkpw` / `bcrypt.gensalt`.
The library is out of scope, so it is idealized as a collision-free keyed
digest: a well-formed hash records the salt and determines exactly the byte
string that was hashed, and `checkpw` recomputes with the stored salt and
compares.  the randomness of `gensalt` becomes an explicit `salt : Nat` parameter.
A stored hash string either parses as a bcrypt hash or is malformed; `checkpw`
raises (here: `Except.error`) on a malformed hash, as the real library does. -/

/-- A well-formed bcrypt hash value: salt plus digest. -/
structure BcryptHash where
  salt : Nat
  digest : List Nat
deriving DecidableEq, Repr

/-- A stored password-hash string: either it parses as a bcrypt hash, or it is
an arbitrary malformed string. -/
inductive StoredHash where
  | bcrypt (h : BcryptHash)
  | malformed (s : String)
deriving DecidableEq, Repr

/-- Model of `bcrypt.hashpw(pw, salt)`. -/
def bcryptHashpw (pw : List Nat) (salt : Nat) : BcryptHash :=
  ⟨salt, pw⟩

/-- Model of `bcrypt.checkpw(pw, stored)`: recompute with the stored salt and
compare; raise on a hash string that does not parse. -/
def bcryptCheckpw (pw : List Nat) (stored : StoredHash) : Except String Bool :=
  match stored with
  | .bcrypt h => .ok (decide (bcryptHashpw pw h.salt = h))
  | .malformed s => .error ("Invalid salt: " ++ s)

/-! ## `auth.py`: password hashing and verification -/

/-- `auth.MAX_PASSWORD_BYTES`: bcrypt only uses the first 72 bytes. -/
def MAX_PASSWORD_BYTES : Nat := 72

/-- `auth._truncate_password`: encode as UTF-8 and truncate to 72 bytes. -/
def truncate_password (password : String) : List Nat :=
  let pw_bytes := utf8Bytes password
  if pw_bytes.length > MAX_PASSWORD_BYTES then pw_bytes.take MAX_PASSWORD_BYTES
  else pw_bytes

/-- `auth.hash_password` (the random salt from `bcrypt.gensalt()` is an
explicit parameter). -/
def hash_password (password : String) (salt : Nat) : StoredHash :=
  .bcrypt (bcryptHashpw (truncate_password password) salt)

/-- `auth.verify_password`: truncate, then `checkpw` inside a
`try ... except: return False`. -/
def verify_password (plain_password : String) (hashed_password : StoredHash) : Bool :=
  match bcryptCheckpw (truncate_password plain_password) hashed_password with
  | .ok b => b
  | .error _ => false

/-! ## `db.py`: the data model -/

/-- Row of the `users` table. -/
structure User where
  id : Nat
  email : String
  full_name : String
  password_hash : StoredHash
  profile_notes : Option String
  created_at : Nat
deriving DecidableEq, Repr

/-- Row of the `conversations` table. -/
structure Conversation where
  id : Nat
  user_id : Nat
  title : String
  is_active : Bool
  created_at : Nat
deriving DecidableEq, Repr

/-- Row of the `messages` table. -/
structure Message where
  id : Nat
  conversation_id : Nat
  sender_role : String
  content : String
  created_at : Nat
deriving DecidableEq, Repr

/-- The database: the three tables, their autoincrement counters, and a
monotone clock supplying `datetime.utcnow()` timestamps. -/
structure DB where
  users : List User
  conversations : List Conversation
  messages : List Message
  next_user_id : Nat
  next_conv_id : Nat
  next_msg_id : Nat
  clock : Nat
deriving DecidableEq, Repr

/-- Streamlit `st.session_state`, restricted to the two keys the app uses. -/
structure SessionState where
  user_id : Option Nat
  conversation_id : Option Nat
deriving DecidableEq, Repr

/-- Basic well-formedness of the autoincrement id for conversations: ids are
positive and below the counter, as SQLite maintains for an autoincrement
primary key. -/
def DB.WF (db : DB) : Prop :=
  0 < db.next_conv_id ∧ ∀ c ∈ db.conversations, c.id < db.next_conv_id

instance (db : DB) : Decidable db.WF := by
  unfold DB.WF; infer_instance

/-- Ascending `ORDER BY created_at` relation on messages. -/
def msgLe (a b : Message) : Prop := a.created_at ≤ b.created_at

instance : DecidableRel msgLe := fun a b => Nat.decLe a.created_at b.created_at

instance : IsTotal Message msgLe := ⟨fun a b => Nat.le_total a.created_at b.created_at⟩

instance : IsTrans Message msgLe := ⟨fun _ _ _ h1 h2 => Nat.le_trans h1 h2⟩

/-- Descending `ORDER BY created_at` relation on conversations. -/
def convDesc (a b : Conversation) : Prop := b.created_at ≤ a.created_at

instance : DecidableRel convDesc := fun a b => Nat.decLe b.created_at a.created_at

/-! ## Storage-layer commit for user INSERTs

`db.py` declares `users.email` with `unique=True`; the SQLAlchemy `commit()`
therefore raises `IntegrityError` when an INSERT collides on the email
column.  This is the storage-layer behaviour `create_user` relies on. -/

/-- Commit an INSERT into `users`: enforces the unique constraint on `email`
declared in `db.py`, raising (`Except.error`) on a duplicate. -/
def commit_insert_user (db : DB) (u : User) : Except String DB :=
  if db.users.any (fun v => v.email == u.email) then
    .error "UNIQUE constraint failed: users.email"
  else
    .ok { db with users := db.users ++ [u],
                  next_user_id := db.next_user_id + 1,
                  clock := db.clock + 1 }

/-! ## `auth.py`: user lookup and creation -/

/-- `auth.get_user_by_email`: case-insensitive lookup after trimming. -/
def get_user_by_email (db : DB) (email : String) : Option User :=
  (db.users.filter (fun u => u.email == pyLower (pyStrip email))).head?

/-- `auth.create_user`: normalize, hash, persist (the salt for
`hash_password` is an explicit parameter). -/
def create_user (db : DB) (email : String) (full_name : String)
    (password : String) (profile_notes : String) (salt : Nat) :
    Except String (DB × User) :=
  let email := pyLower (pyStrip email)
  let user : User :=
    { id := db.next_user_id
      email := email
      full_name := pyStrip full_name
      password_hash := hash_password password salt
      profile_notes := if pyStrip profile_notes = "" then none
                       else some (pyStrip profile_notes)
      created_at := db.clock }
  match commit_insert_user db user with
  | .ok db1 => .ok (db1, user)
  | .error e => .error e

/-! ## `app.py`: conversation manager -/

/-- `app.get_or_create_active_conversation`: prefer the remembered
conversation id when it still belongs to this user; else the most recently
created active conversation of this user; else create a fresh one.  The
Python guard `if conv_id:` is a truthiness test, hence the `≠ 0` check. -/
def get_or_create_active_conversation (db : DB) (st : SessionState)
    (user : User) : DB × SessionState × Conversation :=
  let conv0 : Option Conversation :=
    match st.conversation_id with
    | some conv_id =>
        if conv_id ≠ 0 then
          (db.conversations.filter
            (fun c => c.id == conv_id && c.user_id == user.id)).head?
        else none
    | none => none
  let conv1 : Option Conversation :=
    match conv0 with
    | some c => some c
    | none =>
        (List.insertionSort convDesc
          (db.conversations.filter
            (fun c => c.user_id == user.id && c.is_active))).head?
  match conv1 with
  | some c => (db, { st with conversation_id := some c.id }, c)
  | none =>
      let conv : Conversation :=
        { id := db.next_conv_id, user_id := user.id,
          title := "Claire session", is_active := true,
          created_at := db.clock }
      ({ db with conversations := db.conversations ++ [conv],
                 next_conv_id := db.next_conv_id + 1,
                 clock := db.clock + 1 },
       { st with conversation_id := some conv.id }, conv)

/-- `app.start_new_conversation`: deactivate every conversation of this user,
then create and activate a fresh one. -/
def start_new_conversation (db : DB) (st : SessionState) (user : User) :
    DB × SessionState × Conversation :=
  let db := { db with
    conversations := db.conversations.map
      (fun (c : Conversation) =>
        if c.user_id == user.id then { c with is_active := false } else c) }
  let conv : Conversation :=
    { id := db.next_conv_id, user_id := user.id,
      title := "Claire session", is_active := true,
      created_at := db.clock }
  let db := { db with conversations := db.conversations ++ [conv],
                      next_conv_id := db.next_conv_id + 1,
                      clock := db.clock + 1 }
  (db, { st with conversation_id := some conv.id }, conv)

/-- `app.get_conversation_history`: messages of the conversation ordered by
`created_at` ascending; when more than `limit` exist, the Python slice
`msgs[-limit:]` keeps the tail. -/
def get_conversation_history (db : DB) (conversation : Conversation)
    (limit : Nat) : List Message :=
  let msgs := List.insertionSort msgLe
    (db.messages.filter (fun m => m.conversation_id == conversation.id))
  if msgs.length > limit then pySliceLast limit msgs else msgs

/-! ## `app.py`: secrets and seeding -/

/-- `app._get_secret`: try `st.secrets` first (a raising secret store is the
all-`none` function), fall back to the environment on a missing or falsy
value, strip, and turn a blank result into `None`. -/
def get_secret (secrets env : String → Option String) (key : String) :
    Option String :=
  let value : Option String :=
    match secrets key with
    | some v => if v = "" then env key else some v
    | none => env key
  match value with
  | some v => if pyStrip v = "" then none else some (pyStrip v)
  | none => none

/-- Body of the `for idx in (1, 2)` loop of `app.seed_two_users_from_secrets`
for one account slot. -/
def seed_slot (secrets env : String → Option String) (salt : Nat) (idx : Nat)
    (db : DB) : Except String DB :=
  let username := get_secret secrets env ("CLAIRE_USER" ++ toString idx ++ "_USERNAME")
  let password := get_secret secrets env ("CLAIRE_USER" ++ toString idx ++ "_PASSWORD")
  let fullname :=
    match get_secret secrets env ("CLAIRE_USER" ++ toString idx ++ "_FULLNAME") with
    | some f => f
    | none =>
        match username with
        | some u => u
        | none => "User" ++ toString idx
  match username, password with
  | some username, some password =>
      match get_user_by_email db username with
      | none =>
          match create_user db username fullname password "" salt with
          | .ok (db1, _) => .ok db1
          | .error e => .error e
      | some existing =>
          let e1 := if existing.full_name = fullname then existing
                    else { existing with full_name := fullname }
          let new_hash := hash_password password salt
          let e2 := if e1.password_hash = new_hash then e1
                    else { e1 with password_hash := new_hash }
          .ok { db with users :=
            db.users.map (fun v => if v.id == existing.id then e2 else v) }
  | _, _ => .ok db

/-- `app.seed_two_users_from_secrets`: run both slots in order. -/
def seed_two_users_from_secrets (secrets env : String → Option String)
    (salt1 salt2 : Nat) (db : DB) : Except String DB :=
  match seed_slot secrets env salt1 1 db with
  | .ok db1 => seed_slot secrets env salt2 2 db1
  | .error e => .error e

/-! ## `app.py`: reply orchestrator

`handle_quick_action` and the chat-input branch of `show_main_app` share the
same persist-call-persist body; it is embedded once.  The external
`generate_claire_reply` performs I/O, so it is a function parameter returning
`Except`; a raised exception is `Except.error` carrying `str(e)`. -/

/-- `app.handle_quick_action` (equally, the chat-input branch of
`app.show_main_app`): persist the user turn, reload history, call the model
inside `try/except`, persist the reply or the fallback text. -/
def handle_quick_action (db : DB) (user : User) (conversation : Conversation)
    (seed_text : String)
    (generate : User → List Message → Except String String) : DB × String :=
  let user_msg : Message :=
    { id := db.next_msg_id, conversation_id := conversation.id,
      sender_role := "user", content := seed_text, created_at := db.clock }
  let db := { db with messages := db.messages ++ [user_msg],
                      next_msg_id := db.next_msg_id + 1,
                      clock := db.clock + 1 }
  let history := get_conversation_history db conversation 50
  let reply : String :=
    match generate user history with
    | .ok r => r
    | .error e =>
        "I hit an error while trying to respond. Check your OpenAI configuration.\n\nError: " ++ e
  let assistant_msg : Message :=
    { id := db.next_msg_id, conversation_id := conversation.id,
      sender_role := "assistant", content := reply, created_at := db.clock }
  let db := { db with messages := db.messages ++ [assistant_msg],
                      next_msg_id := db.next_msg_id + 1,
                      clock := db.clock + 1 }
  (db, reply)

/-! ## `claire_ai.py`: prompt assembly -/

/-- The fixed persona/instruction block of `claire_ai.py` (after the
`.strip()` applied in the source), written one source line per literal. -/
def SYSTEM_PROMPT : String :=
  "You are Claire, a calm, grounded AI coach focused on anxiety, stress, and low mood.\n"
  ++ "You are INSPIRED by the ideas of Dr. Claire Weekes (face, accept, float, let time pass),\n"
  ++ "but you are NOT Dr. Claire Weekes, NOT a doctor, and NOT a therapist.\n"
  ++ "\n"
  ++ "########################\n"
  ++ "## CORE ROLE\n"
  ++ "########################\n"
  ++ "- Help the user ride out waves of anxiety, panic, or low mood safely.\n"
  ++ "- Normalize their experience; let them know they\u2019re not broken or hopeless.\n"
  ++ "- Focus on very small, practical steps they can take right now.\n"
  ++ "- You are a supportive companion, not a replacement for professional care.\n"
  ++ "\n"
  ++ "########################\n"
  ++ "## CONVERSATION STYLE\n"
  ++ "########################\n"
  ++ "- Sound human and conversational, like a calm friend who understands anxiety very well.\n"
  ++ "- Use SHORT answers by default: usually 3\u20136 sentences.\n"
  ++ "- Avoid long lectures and theory. No big monologues.\n"
  ++ "- Keep it back-and-forth: usually end with ONE gentle, specific follow-up question\n"
  ++ "  to keep the conversation moving (unless there is a safety / crisis situation).\n"
  ++ "- Be clear and honest; no fake positivity or \u201ceverything is amazing\u201d tone.\n"
  ++ "- Use simple, concrete language. Avoid jargon and clinical labels.\n"
  ++ "\n"
  ++ "########################\n"
  ++ "## WHEN THE USER TALKS ABOUT ANXIETY OR PANIC\n"
  ++ "########################\n"
  ++ "When the user is anxious, panicky, or fearful (e.g. mentions anxiety, panic attacks,\n"
  ++ "racing heart, dizziness, \u201cI feel on edge\u201d, \u201cI\u2019m freaking out\u201d, etc.):\n"
  ++ "\n"
  ++ "1. Stay tightly focused on the **current wave of anxiety**, not their whole life story.\n"
  ++ "2. Use the Claire Weekes approach explicitly:\n"
  ++ "   - FACE: Help them turn toward the sensations instead of fighting or avoiding them.\n"
  ++ "   - ACCEPT: Encourage them to soften resistance (\u201cI can let this be here for now\u201d).\n"
  ++ "   - FLOAT: Invite them to \u201cfloat\u201d past sensations instead of tensing up against them.\n"
  ++ "   - LET TIME PASS: Remind them that waves rise and fall; they don\u2019t have to fix it instantly.\n"
  ++ "3. Explain that sensations are **uncomfortable but not dangerous** (without giving medical guarantees).\n"
  ++ "4. Watch for \u201csecond fear\u201d:\n"
  ++ "   - Gently point out when they are scaring themselves ABOUT the sensations.\n"
  ++ "   - Help them step back from catastrophic stories (\u201cwhat if I go crazy / die / lose control\u201d).\n"
  ++ "5. Use grounding:\n"
  ++ "   - Breath: slow, gentle exhale focus.\n"
  ++ "   - Body: notice physical contact points, weight, posture.\n"
  ++ "   - Senses: things they can see, hear, feel right now.\n"
  ++ "6. Move in SMALL steps:\n"
  ++ "   - Ask very concrete questions: \u201cWhat are you feeling in your body right now?\u201d,\n"
  ++ "     \u201cWhere do you notice the tension most?\u201d, \u201cWhat is the scariest thought in this moment?\u201d\n"
  ++ "   - Offer ONE simple experiment at a time, not a big to-do list.\n"
  ++ "7. Stay with anxiety until it settles a bit before drifting to other topics.\n"
  ++ "   Don\u2019t jump to general life coaching when they are in the middle of a panic wave.\n"
  ++ "\n"
  ++ "########################\n"
  ++ "## DEPRESSION / LOW MOOD\n"
  ++ "########################\n"
  ++ "When the user sounds flat, hopeless, or low:\n"
  ++ "\n"
  ++ "- Validate heaviness, numbness, and hopelessness without dramatizing it.\n"
  ++ "- Emphasize tiny steps: basic self-care, gentle movement, getting outside,\n"
  ++ "  simple routine, small bits of connection.\n"
  ++ "- Avoid \u201cjust think positive\u201d. Instead, suggest realistic, manageable actions.\n"
  ++ "- Remind them that it\u2019s okay to ask for help from others and professionals.\n"
  ++ "- Keep answers short and grounded, with one simple next step and a check-in question.\n"
  ++ "\n"
  ++ "########################\n"
  ++ "## SAFETY \u2013 SUICIDE / SELF-HARM / HARM TO OTHERS\n"
  ++ "########################\n"
  ++ "If the user mentions:\n"
  ++ "- wanting to die\n"
  ++ "- wanting to disappear\n"
  ++ "- self-harm, cutting, overdosing, or similar\n"
  ++ "- active plans or intent to harm themselves or someone else\n"
  ++ "\n"
  ++ "THEN YOU MUST:\n"
  ++ "1. Respond with empathy and zero judgment.\n"
  ++ "2. Clearly say you CANNOT provide crisis or emergency support.\n"
  ++ "3. Strongly encourage them to:\n"
  ++ "   - Contact a local crisis hotline or emergency number immediately, OR\n"
  ++ "   - Reach out to a trusted person (friend, family member, therapist, doctor).\n"
  ++ "4. If there is any sign of immediate danger, tell them to call their local\n"
  ++ "   emergency number right now (for example, 911 in the US, or the equivalent\n"
  ++ "   in their country).\n"
  ++ "5. Do NOT give instructions, tips, or encouragement for self-harm or suicide.\n"
  ++ "6. In crisis moments:\n"
  ++ "   - Focus on staying safe RIGHT NOW and getting real-world help.\n"
  ++ "   - Keep your response short, steady, and clear.\n"
  ++ "   - Do NOT ask casual follow-up questions. Do NOT treat it like normal chit-chat.\n"
  ++ "\n"
  ++ "########################\n"
  ++ "## GENERAL SAFETY\n"
  ++ "########################\n"
  ++ "- Do NOT diagnose conditions.\n"
  ++ "- Do NOT claim to cure anything.\n"
  ++ "- Do NOT give medication or treatment instructions.\n"
  ++ "- Encourage seeking professional help when things are severe, persistent,\n"
  ++ "  or impacting daily life a lot."

/-- One entry of the message list sent to the chat model. -/
structure ChatMessage where
  role : String
  content : String
deriving DecidableEq, Repr

/-- `claire_ai.build_messages_for_model`: trim history to the last 20,
assemble the profile block from labelled lines (the notes line is guarded by
Python truthiness of `user.profile_notes`), and append the history 1:1. -/
def build_messages_for_model (user : User) (history : List Message) :
    List ChatMessage :=
  let history := if history.length > 20 then pySliceLast 20 history else history
  let profile_parts : List String :=
    ["Name: " ++ user.full_name, "Username: " ++ user.email] ++
    (match user.profile_notes with
     | some notes => if notes = "" then [] else ["Profile notes: " ++ notes]
     | none => [])
  let profile_text := pyJoin "\n" profile_parts
  ([{ role := "system", content := SYSTEM_PROMPT },
    { role := "system",
      content := "Here is context about the user you are helping. " ++
        "Use it to personalize your responses:\n" ++ profile_text }]
   : List ChatMessage)
  ++ history.map (fun m => { role := m.sender_role, content := m.content })

/-! ## Spec-side definitions

Written from the wording of the spec, for the refinement claims that
compare the implementation against that wording. -/

/-- The most recent `n` entries of a sequence, in original order (spec
wording: "truncated to the last `n`", "the most recent `n` messages"). -/
def specLastN {α : Type} (n : Nat) (xs : List α) : List α :=
  (xs.reverse.take n).reverse

/-- Profile-context block as the spec words it: a name line, an identifier
line, and a notes line included exactly when notes are present and
non-blank. -/
def spec_profile_block (user : User) : String :=
  "Name: " ++ user.full_name ++ "\n" ++ "Username: " ++ user.email ++
  (match user.profile_notes with
   | some notes =>
       if notes = "" then "" else "\n" ++ "Profile notes: " ++ notes
   | none => "")

/-- Prompt payload as the spec words it: the fixed persona block, then the
profile-context block, then the most recent 20 history messages mapped 1:1
in original order with the stored sender role. -/
def spec_prompt_payload (user : User) (history : List Message) :
    List ChatMessage :=
  { role := "system", content := SYSTEM_PROMPT } ::
  { role := "system",
    content := "Here is context about the user you are helping. " ++
      "Use it to personalize your responses:\n" ++ spec_profile_block user } ::
  (specLastN 20 history).map
    (fun m => { role := m.sender_role, content := m.content })

/-- Conversation history as the spec words it: all messages of the
conversation in ascending creation order, truncated to the last `limit`. -/
def spec_history (db : DB) (conversation : Conversation) (limit : Nat) :
    List Message :=
  specLastN limit (List.insertionSort msgLe
    (db.messages.filter (fun m => m.conversation_id == conversation.id)))

/-- Decidable equality for `Except` results, so that concrete runs of the
fallible operations can be checked by `decide`. -/
instance {ε α : Type} [DecidableEq ε] [DecidableEq α] :
    DecidableEq (Except ε α) := fun x y =>
  match x, y with
  | .ok a, .ok b => decidable_of_iff (a = b) (by simp)
  | .error a, .error b => decidable_of_iff (a = b) (by simp)
  | .ok _, .error _ => isFalse (by simp)
  | .error _, .ok _ => isFalse (by simp)

/-! ## General helper lemmas -/

/-- An element delivered by `head?` is a member of the list. -/
theorem mem_of_head?_eq_some {α : Type} {l : List α} {a : α}
    (h : l.head? = some a) : a ∈ l := by
  cases l with
  | nil => simp at h
  | cons x t =>
      simp at h
      subst h
      exact List.mem_cons_self x t

/-- The head of a filtered list satisfies the filter predicate. -/
theorem head?_filter_prop {α : Type} {p : α → Bool} {l : List α} {a : α}
    (h : (l.filter p).head? = some a) : p a = true :=
  (List.mem_filter.mp (mem_of_head?_eq_some h)).2

/-- The head of a sorted filtered list satisfies the filter predicate. -/
theorem head?_sort_filter_prop {α : Type} {r : α → α → Prop} [DecidableRel r]
    {p : α → Bool} {l : List α} {a : α}
    (h : (List.insertionSort r (l.filter p)).head? = some a) : p a = true := by
  have hmem : a ∈ List.insertionSort r (l.filter p) := mem_of_head?_eq_some h
  have : a ∈ l.filter p := (List.perm_insertionSort r (l.filter p)).mem_iff.mp hmem
  exact (List.mem_filter.mp this).2

/-- The guarded Python tail slice agrees with "the last `n` entries" whenever
`n` is positive. -/
theorem slice_eq_specLastN {α : Type} (n : Nat) (xs : List α) (hn : n ≠ 0) :
    (if xs.length > n then pySliceLast n xs else xs) = specLastN n xs := by
  unfold pySliceLast specLastN
  by_cases h : xs.length > n
  · simp only [h, if_true, hn, if_false]
    rw [List.take_reverse, List.reverse_reverse]
  · simp only [h, if_false]
    rw [List.take_of_length_le (by simpa using Nat.le_of_not_lt h),
      List.reverse_reverse]

/-- `_truncate_password` is exactly "take the first 72 UTF-8 bytes". -/
theorem truncate_password_take (p : String) :
    truncate_password p = (utf8Bytes p).take MAX_PASSWORD_BYTES := by
  unfold truncate_password
  by_cases h : (utf8Bytes p).length > MAX_PASSWORD_BYTES
  · simp [h]
  · simp only [h, if_false]
    rw [List.take_of_length_le (Nat.le_of_not_lt h)]

/-- Verifying one password against the hash of another compares their
truncated byte strings. -/
theorem verify_hash_password (p q : String) (salt : Nat) :
    verify_password p (hash_password q salt)
      = decide (truncate_password p = truncate_password q) := by
  unfold verify_password hash_password bcryptCheckpw bcryptHashpw
  by_cases h : truncate_password p = truncate_password q
  · simp [h]
  · simp [h, BcryptHash.mk.injEq]

/-! ## C5: bcrypt round trip and the 72-byte truncation window -/

/-- C5.  For every password `p`, `verify(p, hash(p))` is true; two passwords
whose UTF-8 encodings agree on their first 72 bytes verify against each
each other; two that differ within the first 72 bytes do not. -/
theorem claim_C5_truncated_verification (p p1 p2 : String) (salt : Nat) :
    verify_password p (hash_password p salt) = true
    ∧ ((utf8Bytes p1).take 72 = (utf8Bytes p2).take 72 →
        verify_password p1 (hash_password p2 salt) = true)
    ∧ ((utf8Bytes p1).take 72 ≠ (utf8Bytes p2).take 72 →
        verify_password p1 (hash_password p2 salt) = false) := by
  refine ⟨?_, ?_, ?_⟩
  · rw [verify_hash_password]
    simp
  · intro h
    rw [verify_hash_password, truncate_password_take, truncate_password_take]
    simpa [MAX_PASSWORD_BYTES] using h
  · intro h
    rw [verify_hash_password, truncate_password_take, truncate_password_take]
    simpa [MAX_PASSWORD_BYTES] using h

/-- A 73-character password whose first 72 bytes are `a`s. -/
def longPw1 : String := ⟨List.replicate 72 'a' ++ ['b']⟩

/-- A second 73-character password agreeing with `longPw1` on the first 72
bytes and differing beyond them. -/
def longPw2 : String := ⟨List.replicate 72 'a' ++ ['c']⟩

/-- Witness for C5: the two long passwords cross-verify, and two short
passwords differing inside the window do not. -/
theorem claim_C5_truncated_verification_witness :
    verify_password longPw1 (hash_password longPw2 3) = true
    ∧ verify_password "apple" (hash_password "apricot" 3) = false :=
  ⟨(claim_C5_truncated_verification "x" longPw1 longPw2 3).2.1 (by decide),
   (claim_C5_truncated_verification "x" "apple" "apricot" 3).2.2 (by decide)⟩

/-! ## C6: verification is total and false on malformed hashes -/

/-- C6.  `verify_password` always returns a boolean (the `try/except`
swallows the exception from the library), and it returns false whenever the
underlying `checkpw` raises — in particular on every malformed stored
hash. -/
theorem claim_C6_verify_never_raises (plain : String) (stored : StoredHash) :
    (verify_password plain stored = true ∨ verify_password plain stored = false)
    ∧ (∀ e, bcryptCheckpw (truncate_password plain) stored = Except.error e →
        verify_password plain stored = false)
    ∧ (∀ s, stored = StoredHash.malformed s →
        verify_password plain stored = false) := by
  refine ⟨by cases h : verify_password plain stored <;> simp, ?_, ?_⟩
  · intro e h
    simp [verify_password, h]
  · intro s h
    subst h
    rfl

/-- Witness for C6: a non-bcrypt stored hash makes verification return
false rather than raise. -/
theorem claim_C6_verify_never_raises_witness :
    verify_password "secret" (StoredHash.malformed "not-a-bcrypt-hash") = false :=
  (claim_C6_verify_never_raises "secret"
    (StoredHash.malformed "not-a-bcrypt-hash")).2.2 "not-a-bcrypt-hash" rfl

/-! ## C4: prompt payload refinement -/

/-- C4.  The assembled model payload is exactly: the fixed persona block,
then the profile-context block (name line, identifier line, notes line
present iff the notes are non-absent and non-empty), then the most recent 20
history messages mapped 1:1 in original order with their stored roles. -/
theorem claim_C4_prompt_payload (user : User) (history : List Message) :
    build_messages_for_model user history = spec_prompt_payload user history := by
  unfold build_messages_for_model spec_prompt_payload spec_profile_block pyJoin
  rw [slice_eq_specLastN 20 history (by decide)]
  cases hnotes : user.profile_notes with
  | none =>
      simp only [List.cons_append, List.nil_append, List.append_nil,
        List.foldl, String.append_assoc, String.append_empty]
  | some notes =>
      by_cases hn : notes = ""
      · subst hn
        simp only [List.cons_append, List.nil_append, List.append_nil,
          List.foldl, String.append_assoc, String.append_empty,
          eq_self_iff_true, if_true]
      · simp only [if_neg hn, List.cons_append, List.nil_append,
          List.append_nil, List.foldl, String.append_assoc]

/-! ## C3: history ordering and window -/

/-- C3 (amended: positive limit).  `get_conversation_history` returns the
messages of the conversation in ascending creation order truncated to the last
`limit`, it is sorted, and its length is `min limit` of the stored count. -/
theorem claim_C3_history_window (db : DB) (conversation : Conversation)
    (limit : Nat) (hlim : 1 ≤ limit) :
    get_conversation_history db conversation limit
      = spec_history db conversation limit
    ∧ List.Sorted msgLe (get_conversation_history db conversation limit)
    ∧ (get_conversation_history db conversation limit).length
        = min limit
            (db.messages.filter
              (fun m => m.conversation_id == conversation.id)).length := by
  have hn : limit ≠ 0 := by omega
  have heq : get_conversation_history db conversation limit
      = spec_history db conversation limit := by
    unfold get_conversation_history spec_history
    exact slice_eq_specLastN limit _ hn
  refine ⟨heq, ?_, ?_⟩
  · unfold get_conversation_history
    dsimp only
    split
    · unfold pySliceLast
      rw [if_neg hn]
      exact List.Pairwise.sublist (List.drop_sublist _ _)
        (List.sorted_insertionSort msgLe _)
    · exact List.sorted_insertionSort msgLe _
  · rw [heq]
    unfold spec_history specLastN
    rw [List.length_reverse, List.length_take, List.length_reverse,
      (List.perm_insertionSort msgLe _).length_eq]

/-- A sample conversation. -/
def exConv : Conversation :=
  { id := 1, user_id := 1, title := "Claire session", is_active := true,
    created_at := 0 }

/-- A sample message in `exConv`. -/
def exMsg : Message :=
  { id := 1, conversation_id := 1, sender_role := "user", content := "hello",
    created_at := 1 }

/-- A database holding one conversation with one message. -/
def exDB1msg : DB :=
  { users := [], conversations := [exConv], messages := [exMsg],
    next_user_id := 1, next_conv_id := 2, next_msg_id := 2, clock := 2 }

/-- Counterexample to C3 as stated for every limit: at `limit = 0` the Python
slice `msgs[-0:]` is the whole list, so the code returns the stored message
rather than the last zero messages. -/
theorem claim_C3_history_counterexample :
    ¬ (get_conversation_history exDB1msg exConv 0
        = spec_history exDB1msg exConv 0) := by decide

/-- Sixty messages in `exConv` with ascending timestamps. -/
def exMsgs60 : List Message :=
  (List.range 60).map
    (fun i =>
      { id := i + 1, conversation_id := 1, sender_role := "user",
        content := "m", created_at := i + 1 })

/-- A database holding one conversation with sixty messages. -/
def exDB60 : DB :=
  { users := [], conversations := [exConv], messages := exMsgs60,
    next_user_id := 1, next_conv_id := 2, next_msg_id := 61, clock := 61 }

/-- Witness for C3: with 60 stored messages and the default limit 50, the
returned view is the last-50 window of the spec — exactly 50 entries. -/
theorem claim_C3_history_window_witness :
    get_conversation_history exDB60 exConv 50 = spec_history exDB60 exConv 50
    ∧ (get_conversation_history exDB60 exConv 50).length = 50 := by
  refine ⟨(claim_C3_history_window exDB60 exConv 50 (by decide)).1, ?_⟩
  rw [(claim_C3_history_window exDB60 exConv 50 (by decide)).2.2]
  decide

/-! ## C7: lookup normalization -/

/-- C7.  `create_user` stores the trimmed lower-cased identifier, and
`get_user_by_email` normalizes its argument the same way, so any lookup
identifier with the same normal form as the created identifier finds the
created user. -/
theorem claim_C7_lookup_case_insensitive
    (db db1 : DB) (u : User) (e_create e_lookup fn pw notes : String)
    (salt : Nat)
    (hnorm : pyLower (pyStrip e_lookup) = pyLower (pyStrip e_create))
    (hcreate : create_user db e_create fn pw notes salt = Except.ok (db1, u)) :
    get_user_by_email db1 e_lookup = some u := by
  unfold create_user commit_insert_user at hcreate
  cases hany : db.users.any (fun v => v.email == pyLower (pyStrip e_create)) with
  | true => simp [hany] at hcreate
  | false =>
      simp only [hany, Bool.false_eq_true, if_false, Except.ok.injEq,
        Prod.mk.injEq] at hcreate
      obtain ⟨hdb1, hu⟩ := hcreate
      subst hdb1
      subst hu
      unfold get_user_by_email
      rw [hnorm]
      have hnil : db.users.filter (fun v => v.email == pyLower (pyStrip e_create)) = [] :=
        List.filter_eq_nil_iff.mpr (List.any_eq_false.mp hany)
      simp [List.filter_append, hnil]

/-- A user as `create_user` persists it for identifier
`"Alex@Example.com "`, password `"pw123"`, salt 9. -/
def exAlex : User :=
  { id := 1, email := "alex@example.com", full_name := "Alex",
    password_hash := hash_password "pw123" 9, profile_notes := none,
    created_at := 0 }

/-- The empty database. -/
def emptyDB : DB :=
  { users := [], conversations := [], messages := [],
    next_user_id := 1, next_conv_id := 1, next_msg_id := 1, clock := 0 }

/-- The database after creating `exAlex` in `emptyDB`. -/
def exDBAlex : DB :=
  { users := [exAlex], conversations := [], messages := [],
    next_user_id := 2, next_conv_id := 1, next_msg_id := 1, clock := 1 }

/-- Witness for C7: create with `"Alex@Example.com "`, look up
`"alex@example.com"`, get the created user back. -/
theorem claim_C7_lookup_case_insensitive_witness :
    get_user_by_email exDBAlex "alex@example.com" = some exAlex :=
  claim_C7_lookup_case_insensitive emptyDB exDBAlex exAlex
    "Alex@Example.com " "alex@example.com" "Alex" "pw123" "" 9
    (by decide) (by decide)

/-! ## C8: duplicate identifiers are rejected by the unique constraint -/

/-- C8.  After a successful `create_user`, a second `create_user` whose
identifier has the same normal form fails with the storage-layer
uniqueness error, and exactly one stored user carries that normalized
identifier. -/
theorem claim_C8_duplicate_email
    (db db1 : DB) (u : User) (e1 e2 fn1 fn2 pw1 pw2 notes1 notes2 : String)
    (s1 s2 : Nat)
    (hnorm : pyLower (pyStrip e2) = pyLower (pyStrip e1))
    (h1 : create_user db e1 fn1 pw1 notes1 s1 = Except.ok (db1, u)) :
    (∃ err, create_user db1 e2 fn2 pw2 notes2 s2 = Except.error err)
    ∧ (db1.users.filter (fun v => v.email == pyLower (pyStrip e1))).length = 1 := by
  unfold create_user commit_insert_user at h1
  cases hany : db.users.any (fun v => v.email == pyLower (pyStrip e1)) with
  | true => simp [hany] at h1
  | false =>
      simp only [hany, Bool.false_eq_true, if_false, Except.ok.injEq,
        Prod.mk.injEq] at h1
      obtain ⟨hdb1, hu⟩ := h1
      have husers : db1.users = db.users ++ [u] := by
        rw [← hdb1, hu]
      have huemail : u.email = pyLower (pyStrip e1) := by
        rw [← hu]
      have hnil : db.users.filter (fun v => v.email == pyLower (pyStrip e1)) = [] :=
        List.filter_eq_nil_iff.mpr (List.any_eq_false.mp hany)
      constructor
      · refine ⟨"UNIQUE constraint failed: users.email", ?_⟩
        unfold create_user commit_insert_user
        have hany2 : db1.users.any (fun v => v.email == pyLower (pyStrip e2)) = true := by
          rw [List.any_eq_true]
          refine ⟨u, ?_, ?_⟩
          · rw [husers]
            exact List.mem_append_right _ (List.mem_cons_self _ _)
          · simp [huemail, hnorm]
        simp only [hany2, if_true]
      · rw [husers]
        simp [List.filter_append, hnil, huemail]

/-- Witness for C8: creating `"alex@example.com"` again after
`"Alex@Example.com "` fails, leaving exactly one matching user. -/
theorem claim_C8_duplicate_email_witness :
    (∃ err, create_user exDBAlex "alex@example.com" "Alexander" "pw456" "" 11
      = Except.error err)
    ∧ (exDBAlex.users.filter
        (fun v => v.email == pyLower (pyStrip "Alex@Example.com "))).length = 1 :=
  claim_C8_duplicate_email emptyDB exDBAlex exAlex
    "Alex@Example.com " "alex@example.com" "Alex" "Alexander" "pw123" "pw456"
    "" "" 9 11 (by decide) (by decide)

/-! ## C1: the reply orchestrator catches completion failures -/

/-- C1.  A turn always adds exactly two messages, and when the completion
call raises, the user turn is persisted verbatim and the assistant turn is
the fallback text, which starts with the fixed sentence and embeds the
message of the error. -/
theorem claim_C1_fallback_turn (db : DB) (user : User) (conv : Conversation)
    (input : String) (generate : User → List Message → Except String String)
    (e : String) :
    (handle_quick_action db user conv input generate).1.messages.length
      = db.messages.length + 2
    ∧ ((∀ hist, generate user hist = Except.error e) →
        (handle_quick_action db user conv input generate).1.messages
          = db.messages ++
            [{ id := db.next_msg_id, conversation_id := conv.id,
               sender_role := "user", content := input,
               created_at := db.clock },
             { id := db.next_msg_id + 1, conversation_id := conv.id,
               sender_role := "assistant",
               content := "I hit an error while trying to respond. Check your OpenAI configuration.\n\nError: " ++ e,
               created_at := db.clock + 1 }]
        ∧ (∃ rest,
            ("I hit an error while trying to respond. Check your OpenAI configuration.\n\nError: " ++ e)
              = "I hit an error while trying to respond." ++ rest)
        ∧ (∃ pre,
            ("I hit an error while trying to respond. Check your OpenAI configuration.\n\nError: " ++ e)
              = pre ++ e)) := by
  constructor
  · unfold handle_quick_action
    dsimp only
    simp [List.length_append]
  · intro h
    unfold handle_quick_action
    dsimp only
    rw [h]
    dsimp only
    refine ⟨by simp, ?_,
      ⟨"I hit an error while trying to respond. Check your OpenAI configuration.\n\nError: ", rfl⟩⟩
    refine ⟨" Check your OpenAI configuration.\n\nError: " ++ e, ?_⟩
    rw [← String.append_assoc]
    congr 1

/-- A user record for the concrete scenarios. -/
def exUser1 : User :=
  { id := 1, email := "user1@example.com", full_name := "User One",
    password_hash := hash_password "pw" 0, profile_notes := none,
    created_at := 0 }

/-- A database holding one conversation and no messages. -/
def exDBConv : DB :=
  { users := [exUser1], conversations := [exConv], messages := [],
    next_user_id := 2, next_conv_id := 2, next_msg_id := 1, clock := 1 }

/-- Witness for C1: the completion call raises "timeout" on the input
"I feel anxious"; the turn persists the user message and the fallback
assistant message, two messages in total. -/
theorem claim_C1_fallback_turn_witness :
    (handle_quick_action exDBConv exUser1 exConv "I feel anxious"
      (fun _ _ => Except.error "timeout")).1.messages.length
      = exDBConv.messages.length + 2
    ∧ (handle_quick_action exDBConv exUser1 exConv "I feel anxious"
      (fun _ _ => Except.error "timeout")).1.messages
      = exDBConv.messages ++
        [{ id := exDBConv.next_msg_id, conversation_id := exConv.id,
           sender_role := "user", content := "I feel anxious",
           created_at := exDBConv.clock },
         { id := exDBConv.next_msg_id + 1, conversation_id := exConv.id,
           sender_role := "assistant",
           content := "I hit an error while trying to respond. Check your OpenAI configuration.\n\nError: " ++ "timeout",
           created_at := exDBConv.clock + 1 }] := by
  have t := claim_C1_fallback_turn exDBConv exUser1 exConv "I feel anxious"
    (fun _ _ => Except.error "timeout") "timeout"
  exact ⟨t.1, (t.2 (fun _ => rfl)).1⟩

/-! ## C10: the resolved conversation always belongs to the user -/

/-- C10.  Whatever the remembered conversation id is (a conversation id of
conversation, a dangling id, or none), the conversation returned by
`get_or_create_active_conversation` is owned by the given user. -/
theorem claim_C10_owner_invariant (db : DB) (st : SessionState) (user : User) :
    ((get_or_create_active_conversation db st user).2.2).user_id = user.id := by
  unfold get_or_create_active_conversation
  cases hst : st.conversation_id with
  | none =>
      cases hs : (List.insertionSort convDesc
          (db.conversations.filter
            (fun c => c.user_id == user.id && c.is_active))).head? with
      | none => simp only [hst, hs]
      | some c =>
          have hp := head?_sort_filter_prop hs
          simp only [Bool.and_eq_true, beq_iff_eq] at hp
          simp only [hst, hs]
          exact hp.1
  | some cid =>
      by_cases h0 : cid ≠ 0
      · cases hh : (db.conversations.filter
            (fun c => c.id == cid && c.user_id == user.id)).head? with
        | some c =>
            have hp := head?_filter_prop hh
            simp only [Bool.and_eq_true, beq_iff_eq] at hp
            simp only [hst, if_pos h0, hh]
            exact hp.2
        | none =>
            cases hs : (List.insertionSort convDesc
                (db.conversations.filter
                  (fun c => c.user_id == user.id && c.is_active))).head? with
            | none => simp only [hst, if_pos h0, hh, hs]
            | some c =>
                have hp := head?_sort_filter_prop hs
                simp only [Bool.and_eq_true, beq_iff_eq] at hp
                simp only [hst, if_pos h0, hh, hs]
                exact hp.1
      · cases hs : (List.insertionSort convDesc
            (db.conversations.filter
              (fun c => c.user_id == user.id && c.is_active))).head? with
        | none => simp only [hst, if_neg h0, hs]
        | some c =>
            have hp := head?_sort_filter_prop hs
            simp only [Bool.and_eq_true, beq_iff_eq] at hp
            simp only [hst, if_neg h0, hs]
            exact hp.1

/-! ## C2: `start_new_conversation` preserves the single-active invariant -/

/-- C2.  Starting from a database where the user has exactly one active
conversation `A`, `start_new_conversation` returns a fresh conversation `B`
owned by the user and active; `A` is deactivated, `B` is the only active
conversation of the user afterwards, and `get_or_create_active_conversation`
then resolves to `B`. -/
theorem claim_C2_start_new_conversation (db : DB) (st : SessionState)
    (user : User) (A : Conversation)
    (hWF : db.WF)
    (hA : db.conversations.filter
      (fun c => c.user_id == user.id && c.is_active) = [A]) :
    ((start_new_conversation db st user).2.2.user_id = user.id)
    ∧ ((start_new_conversation db st user).2.2.is_active = true)
    ∧ ((start_new_conversation db st user).2.2 ∉ db.conversations)
    ∧ ({ A with is_active := false }
        ∈ (start_new_conversation db st user).1.conversations)
    ∧ ((start_new_conversation db st user).1.conversations.filter
        (fun c => c.user_id == user.id && c.is_active)
        = [(start_new_conversation db st user).2.2])
    ∧ ((get_or_create_active_conversation (start_new_conversation db st user).1
          (start_new_conversation db st user).2.1 user).2.2
        = (start_new_conversation db st user).2.2) := by
  obtain ⟨hpos, hlt⟩ := hWF
  have hAmem' : A ∈ db.conversations.filter
      (fun c => c.user_id == user.id && c.is_active) := by
    rw [hA]
    exact List.mem_cons_self _ _
  have hAmem : A ∈ db.conversations := List.mem_of_mem_filter hAmem'
  have hAprop := (List.mem_filter.mp hAmem').2
  have hAuid : A.user_id = user.id := by
    simp only [Bool.and_eq_true, beq_iff_eq] at hAprop
    exact hAprop.1
  unfold start_new_conversation
  dsimp only
  refine ⟨rfl, rfl, ?_, ?_, ?_, ?_⟩
  · intro hmem
    exact absurd (hlt _ hmem) (Nat.lt_irrefl _)
  · apply List.mem_append_left
    have hfA : (fun (c : Conversation) =>
        if c.user_id == user.id then { c with is_active := false } else c) A
        = { A with is_active := false } := by
      dsimp only
      rw [if_pos (show (A.user_id == user.id) = true by simp [hAuid])]
    rw [← hfA]
    exact List.mem_map_of_mem _ hAmem
  · rw [List.filter_append]
    have h1 : (db.conversations.map (fun (c : Conversation) =>
        if c.user_id == user.id then { c with is_active := false } else c)).filter
        (fun c => c.user_id == user.id && c.is_active) = [] := by
      rw [List.filter_eq_nil_iff]
      intro x hx
      rw [List.mem_map] at hx
      obtain ⟨a, ha, rfl⟩ := hx
      by_cases hq : a.user_id = user.id
      · simp [hq]
      · simp [hq]
    rw [h1]
    simp
  · unfold get_or_create_active_conversation
    dsimp only
    rw [if_pos (Nat.pos_iff_ne_zero.mp hpos)]
    have h2 : (db.conversations.map (fun (c : Conversation) =>
        if c.user_id == user.id then { c with is_active := false } else c)
        ++ [Conversation.mk db.next_conv_id user.id "Claire session" true
              db.clock]).filter
        (fun (c : Conversation) => c.id == db.next_conv_id && c.user_id == user.id)
        = [Conversation.mk db.next_conv_id user.id "Claire session" true
            db.clock] := by
      rw [List.filter_append]
      have hnil : (db.conversations.map (fun (c : Conversation) =>
          if c.user_id == user.id then { c with is_active := false } else c)).filter
          (fun (c : Conversation) => c.id == db.next_conv_id && c.user_id == user.id) = [] := by
        rw [List.filter_eq_nil_iff]
        intro x hx
        rw [List.mem_map] at hx
        obtain ⟨a, ha, rfl⟩ := hx
        have hane : a.id ≠ db.next_conv_id := Nat.ne_of_lt (hlt a ha)
        by_cases hq : a.user_id = user.id
        · simp [hq, hane]
        · simp [hq, hane]
      rw [hnil]
      simp
    rw [h2]
    rfl

/-- A database in which `exUser1` has exactly one active conversation. -/
def exDBA : DB :=
  { users := [exUser1], conversations := [exConv], messages := [],
    next_user_id := 2, next_conv_id := 2, next_msg_id := 1, clock := 1 }

/-- A session remembering user 1 and conversation 1. -/
def exSt : SessionState := { user_id := some 1, conversation_id := some 1 }

/-- Witness for C2: starting a new session on the concrete database yields an
active conversation that the resolver then returns. -/
theorem claim_C2_start_new_conversation_witness :
    (start_new_conversation exDBA exSt exUser1).2.2.is_active = true
    ∧ (get_or_create_active_conversation
        (start_new_conversation exDBA exSt exUser1).1
        (start_new_conversation exDBA exSt exUser1).2.1 exUser1).2.2
      = (start_new_conversation exDBA exSt exUser1).2.2 := by
  have t := claim_C2_start_new_conversation exDBA exSt exUser1 exConv
    (by decide) (by decide)
  exact ⟨t.2.1, t.2.2.2.2.2⟩

/-! ## C9: credential seeding -/

/-- Collapsing the two conditional field updates of the seeding sync: the
result always carries the configured display name and password hash. -/
theorem seed_sync_eq (ex : User) (fn : String) (h : StoredHash) :
    (if (if ex.full_name = fn then ex else { ex with full_name := fn }).password_hash = h
     then (if ex.full_name = fn then ex else { ex with full_name := fn })
     else { (if ex.full_name = fn then ex else { ex with full_name := fn }) with
              password_hash := h })
    = { ex with full_name := fn, password_hash := h } := by
  obtain ⟨a, b, c, d, e, f⟩ := ex
  dsimp only
  by_cases h1 : c = fn
  · subst h1
    by_cases h2 : d = h
    · subst h2
      simp
    · simp [h2]
  · simp only [if_neg h1]
    by_cases h2 : d = h
    · subst h2
      simp
    · simp [h2]

/-- C9.  Per seeding slot: a missing username or password skips the slot;
with both present and no stored user under that identifier a new user is
created carrying the configured identifier and password hash; with a stored
user present, the display name and password hash of that user are resynchronized
to the current configuration. -/
theorem claim_C9_seed_slots (db : DB) (secrets env : String → Option String)
    (idx salt : Nat) :
    ((get_secret secrets env ("CLAIRE_USER" ++ toString idx ++ "_USERNAME") = none
      ∨ get_secret secrets env ("CLAIRE_USER" ++ toString idx ++ "_PASSWORD") = none) →
      seed_slot secrets env salt idx db = Except.ok db)
    ∧ (∀ un pw,
        get_secret secrets env ("CLAIRE_USER" ++ toString idx ++ "_USERNAME") = some un →
        get_secret secrets env ("CLAIRE_USER" ++ toString idx ++ "_PASSWORD") = some pw →
        get_user_by_email db un = none →
        ∃ db1 u, seed_slot secrets env salt idx db = Except.ok db1
          ∧ db1.users = db.users ++ [u]
          ∧ u.email = pyLower (pyStrip un)
          ∧ u.password_hash = hash_password pw salt)
    ∧ (∀ un pw existing,
        get_secret secrets env ("CLAIRE_USER" ++ toString idx ++ "_USERNAME") = some un →
        get_secret secrets env ("CLAIRE_USER" ++ toString idx ++ "_PASSWORD") = some pw →
        get_user_by_email db un = some existing →
        seed_slot secrets env salt idx db = Except.ok
          { db with
            users := db.users.map (fun (v : User) =>
              if v.id == existing.id then
                { existing with
                  full_name :=
                    (match get_secret secrets env
                        ("CLAIRE_USER" ++ toString idx ++ "_FULLNAME") with
                     | some f => f
                     | none => un),
                  password_hash := hash_password pw salt }
              else v) }) := by
  refine ⟨?_, ?_, ?_⟩
  · intro h
    obtain h | h := h
    · unfold seed_slot
      simp only [h]
    · cases hu : get_secret secrets env
          ("CLAIRE_USER" ++ toString idx ++ "_USERNAME") with
      | none =>
          unfold seed_slot
          simp only [hu]
      | some un =>
          unfold seed_slot
          simp only [hu, h]
  · intro un pw h1 h2 h3
    unfold seed_slot
    simp only [h1, h2, h3]
    unfold create_user commit_insert_user
    have hnil : db.users.filter (fun v => v.email == pyLower (pyStrip un)) = [] := by
      unfold get_user_by_email at h3
      cases hfl : db.users.filter (fun v => v.email == pyLower (pyStrip un)) with
      | nil => rfl
      | cons a t =>
          rw [hfl] at h3
          simp at h3
    have hany : db.users.any (fun v => v.email == pyLower (pyStrip un)) = false :=
      List.any_eq_false.mpr (List.filter_eq_nil_iff.mp hnil)
    simp only [hany, Bool.false_eq_true, if_false]
    exact ⟨_, _, rfl, rfl, rfl, rfl⟩
  · intro un pw existing h1 h2 h3
    unfold seed_slot
    simp only [h1, h2, h3]
    simp only [seed_sync_eq]

/-- Seeding configuration providing only the first slot. -/
def exSecrets : String → Option String := fun k =>
  if k = "CLAIRE_USER1_USERNAME" then some "Alice@Example.com"
  else if k = "CLAIRE_USER1_PASSWORD" then some "wonderland"
  else none

/-- An environment providing no configuration values. -/
def exEnv : String → Option String := fun _ => none

/-- Witness for C9: slot 2 is skipped for lack of configuration, while slot 1
creates the configured user in the empty database. -/
theorem claim_C9_seed_slots_witness :
    seed_slot exSecrets exEnv 4 2 emptyDB = Except.ok emptyDB
    ∧ ∃ db1 u, seed_slot exSecrets exEnv 4 1 emptyDB = Except.ok db1
        ∧ db1.users = emptyDB.users ++ [u]
        ∧ u.email = pyLower (pyStrip "Alice@Example.com")
        ∧ u.password_hash = hash_password "wonderland" 4 := by
  refine ⟨(claim_C9_seed_slots emptyDB exSecrets exEnv 2 4).1
    (Or.inl (by decide)), ?_⟩
  exact (claim_C9_seed_slots emptyDB exSecrets exEnv 1 4).2.1
    "Alice@Example.com" "wonderland" (by decide) (by decide) (by decide)

end Claire
